import Mathlib

/-
Shallow embedding of the AppForge workflow state engine
(src/appforge_mcp_server.py) and proofs about its operations.

The SQLite tables become lists of row structures; AUTOINCREMENT ids are
threaded through the state as explicit counters; `datetime.now()` becomes an
explicit `now : Nat` argument (a logical clock); JSON-text columns that the
engine never inspects are kept as plain strings; Python dict results become
structures whose optional keys are `Option` fields.  Presentational
"message" strings in result dicts are not modelled.  Operations that may
raise a Python exception return `Except String _`; the connection context
manager's rollback-on-exception is modelled at the tool boundary, which
restores the pre-call state and reports a generic structured failure.
-/

set_option autoImplicit false

namespace AppForge

/-! ## Enumerated status columns (the SQL CHECK constraints) -/

/-- Status column of the agents table. -/
inductive AgentStatus where
  | pending
  | in_progress
  | complete
  | failed
  deriving DecidableEq, Repr

/-- Status column of the features table. -/
inductive FeatureStatus where
  | pending
  | in_progress
  | complete
  | failed
  | skipped
  deriving DecidableEq, Repr

/-- Priority column of the features table. -/
inductive Priority where
  | HIGH
  | MEDIUM
  | LOW
  deriving DecidableEq, Repr

/-- Status column of the approval_gates table. -/
inductive GateStatus where
  | pending
  | approved
  | rejected
  deriving DecidableEq, Repr

/-- Gate type column of the approval_gates table. -/
inductive GateType where
  | must_approve
  | optional_review
  | auto_proceed
  deriving DecidableEq, Repr

/-- Status column of the phases table. -/
inductive PhaseStatus where
  | pending
  | in_progress
  | complete
  | blocked
  deriving DecidableEq, Repr

/-- Status column of the projects table. -/
inductive ProjectStatus where
  | active
  | paused
  | completed
  | failed
  deriving DecidableEq, Repr

/-! ## Table rows -/

/-- Row of the projects table. -/
structure ProjectRow where
  id : Nat
  name : String
  description : String
  tech_stack : String
  current_phase : Int
  status : ProjectStatus
  created_at : Nat
  updated_at : Nat
  deriving DecidableEq, Repr

/-- Row of the phases table. -/
structure PhaseRow where
  id : Nat
  project_id : Nat
  phase_number : Int
  phase_name : String
  status : PhaseStatus
  started_at : Option Nat
  completed_at : Option Nat
  deriving DecidableEq, Repr

/-- Row of the agents table.  `phase_number` is declared `INTEGER NOT NULL`
in the schema; the staged row carries an `Option Int` so that an INSERT that
omits the column (supplying SQL NULL) can be checked against the NOT NULL
constraint exactly where SQLite checks it. -/
structure AgentRow where
  id : Nat
  project_id : Nat
  agent_name : String
  phase_number : Option Int
  status : AgentStatus
  output_artifacts : Option String
  error_message : Option String
  started_at : Option Nat
  completed_at : Option Nat
  deriving DecidableEq, Repr

/-- Row of the features table. -/
structure FeatureRow where
  id : Nat
  project_id : Nat
  feature_name : String
  description : String
  priority : Priority
  status : FeatureStatus
  retry_count : Int
  max_retries : Int
  assigned_iteration : Option Int
  created_at : Nat
  started_at : Option Nat
  completed_at : Option Nat
  deriving DecidableEq, Repr

/-- Row of the approval_gates table. -/
structure GateRow where
  id : Nat
  project_id : Nat
  gate_name : String
  gate_type : GateType
  status : GateStatus
  artifacts : String
  user_feedback : Option String
  requested_at : Nat
  resolved_at : Option Nat
  deriving DecidableEq, Repr

/-- Row of the audit_log table.  The JSON `details` payload is modelled as a
list of key/value pairs with stringified values. -/
structure AuditRow where
  id : Nat
  project_id : Nat
  event_type : String
  agent_name : Option String
  phase_number : Option Int
  details : List (String × String)
  timestamp : Nat
  deriving DecidableEq, Repr

/-- The whole database: one list per table plus per-table AUTOINCREMENT
counters. -/
structure DB where
  projects : List ProjectRow
  phases : List PhaseRow
  agents : List AgentRow
  features : List FeatureRow
  approval_gates : List GateRow
  audit_log : List AuditRow
  nextProjectId : Nat
  nextPhaseId : Nat
  nextAgentId : Nat
  nextFeatureId : Nat
  nextGateId : Nat
  nextAuditId : Nat
  deriving DecidableEq, Repr

/-! ## The seeded dependency graph

`_initialize_dependency_graph` seeds the dependencies table once with a fixed
pipeline; the `depends_on` JSON strings are decoded into lists here because
the engine always reads them through `json.loads`. -/

/-- Seed rows of the dependencies table, in insertion order:
(agent_name, depends_on, phase_number). -/
def dependencyGraph : List (String × List String × Int) :=
  [ ("input-agent", [], 0),
    ("requirements-analyst", ["input-agent"], 1),
    ("ui-ux-designer", ["input-agent"], 1),
    ("database-architect", ["requirements-analyst", "ui-ux-designer"], 2),
    ("api-designer", ["requirements-analyst", "ui-ux-designer"], 2),
    ("integration-specialist", ["requirements-analyst", "ui-ux-designer"], 2),
    ("backend-developer", ["database-architect", "api-designer", "integration-specialist"], 3),
    ("frontend-developer", ["backend-developer", "ui-ux-designer"], 3),
    ("backend-developer-feature", ["backend-developer"], 4),
    ("frontend-developer-feature", ["backend-developer-feature"], 4),
    ("qa-engineer-feature", ["backend-developer-feature", "frontend-developer-feature"], 4),
    ("qa-engineer", ["qa-engineer-feature"], 5),
    ("security-auditor", ["qa-engineer-feature"], 5),
    ("devops-engineer", ["qa-engineer-feature"], 5),
    ("devops-engineer-staging", ["qa-engineer", "security-auditor", "devops-engineer"], 6),
    ("devops-engineer-production", ["devops-engineer-staging"], 6),
    ("devops-engineer-appstore", ["devops-engineer-production"], 6) ]

/-- SELECT depends_on, phase_number FROM dependencies WHERE agent_name = ?. -/
def depLookup (agent_name : String) : Option (List String × Int) :=
  (dependencyGraph.find? (fun d => d.1 = agent_name)).map (fun d => d.2)

/-! ## Small SQL helpers -/

/-- SELECT current_phase FROM projects WHERE id = ?, defaulting to 0 when the
project row is absent (`project["current_phase"] if project else 0`). -/
def currentPhaseOf (db : DB) (project_id : Nat) : Int :=
  match db.projects.find? (fun p => p.id = project_id) with
  | some p => p.current_phase
  | none => 0

/-- Agent names with a complete-status run record for the project
(SELECT agent_name FROM agents WHERE project_id = ? AND status = 'complete'). -/
def completedNames (db : DB) (project_id : Nat) : List String :=
  (db.agents.filter (fun a =>
    decide (a.project_id = project_id ∧ a.status = AgentStatus.complete))).map
    (fun a => a.agent_name)

/-- The completeness probe used by get_next_agents: SELECT id FROM agents
WHERE project_id = ? AND agent_name = ? AND status = 'complete', tested for a
row. -/
def hasCompleteRecord (db : DB) (project_id : Nat) (agent_name : String) : Bool :=
  (db.agents.find? (fun a =>
    decide (a.project_id = project_id ∧ a.agent_name = agent_name ∧
      a.status = AgentStatus.complete))).isSome

/-- INSERT INTO audit_log (project_id, event_type, agent_name, phase_number,
details) VALUES (...), from AppForgeDB.log_event. -/
def log_event (db : DB) (project_id : Nat) (event_type : String)
    (details : List (String × String)) (agent_name : Option String)
    (phase_number : Option Int) (now : Nat) : DB :=
  { db with
    audit_log := db.audit_log ++
      [{ id := db.nextAuditId, project_id := project_id,
         event_type := event_type, agent_name := agent_name,
         phase_number := phase_number, details := details, timestamp := now }],
    nextAuditId := db.nextAuditId + 1 }

/-- INSERT INTO agents, checking the schema constraint
`phase_number INTEGER NOT NULL` the way SQLite does: inserting SQL NULL into
the column raises an IntegrityError. -/
def insertAgent (db : DB) (row : AgentRow) : Except String DB :=
  if row.phase_number.isNone then
    Except.error "NOT NULL constraint failed: agents.phase_number"
  else
    Except.ok { db with agents := db.agents ++ [row],
                        nextAgentId := db.nextAgentId + 1 }

/-! ## can_start_agent -/

/-- Result dict of can_start_agent; absent keys are `none`. -/
structure CanStartResult where
  success : Bool
  error : Option String := none
  can_start : Option Bool := none
  required_phase : Option Int := none
  current_phase : Option Int := none
  dependencies : Option (List String) := none
  missing_dependencies : Option (List String) := none
  deriving DecidableEq, Repr

/-- AppForgeStateManager.can_start_agent: dependency lookup, completed-set
computation, missing-prerequisite filter, then the phase-gating check that
can flip `can_start` to false and append a synthetic explanatory entry. -/
def can_start_agent (db : DB) (project_id : Nat) (agent_name : String) :
    CanStartResult :=
  match depLookup agent_name with
  | none => { success := false, error := some ("Unknown agent: " ++ agent_name) }
  | some (dependencies, required_phase) =>
    let completed_names := completedNames db project_id
    let missing := dependencies.filter (fun dep => ¬ completed_names.contains dep)
    let can_start := missing.length = 0
    let current_phase := currentPhaseOf db project_id
    if can_start ∧ current_phase < required_phase then
      { success := true, can_start := some false,
        required_phase := some required_phase,
        current_phase := some current_phase,
        dependencies := some dependencies,
        missing_dependencies := some (missing ++
          ["Project is in Phase " ++ toString current_phase ++
           ", but agent requires Phase " ++ toString required_phase]) }
    else
      { success := true, can_start := some can_start,
        required_phase := some required_phase,
        current_phase := some current_phase,
        dependencies := some dependencies,
        missing_dependencies := some missing }

/-! ## mark_agent_complete / mark_agent_failed -/

/-- Result dict of mark_agent_complete and mark_agent_failed. -/
structure MarkResult where
  success : Bool
  error : Option String := none
  phase : Option Int := none
  deriving DecidableEq, Repr

/-- The predicate of the existing-run query in mark_agent_complete:
SELECT id, status FROM agents WHERE project_id = ? AND agent_name = ? AND
status != 'complete'. -/
def nonCompleteRun (project_id : Nat) (agent_name : String) (a : AgentRow) :
    Bool :=
  decide (a.project_id = project_id ∧ a.agent_name = agent_name ∧
    a.status ≠ AgentStatus.complete)

/-- UPDATE projects SET updated_at = ? WHERE id = ?. -/
def touchProject (db : DB) (project_id : Nat) (now : Nat) : DB :=
  { db with projects := db.projects.map (fun p =>
      if p.id = project_id then { p with updated_at := now } else p) }

/-- AppForgeStateManager.mark_agent_complete: resolves the agent phase from
the dependency graph, updates an existing non-complete run in place if one
exists and otherwise inserts a fresh complete record, touches the project
timestamp and appends an agent_complete audit entry. -/
def mark_agent_complete (db : DB) (project_id : Nat) (agent_name : String)
    (artifacts : String) (now : Nat) : Except String (DB × MarkResult) :=
  match depLookup agent_name with
  | none =>
    Except.ok (db, { success := false,
                     error := some ("Unknown agent: " ++ agent_name) })
  | some (_, phase_number) =>
    let staged : Except String DB :=
      match db.agents.find? (nonCompleteRun project_id agent_name) with
      | some existing =>
        Except.ok { db with agents := db.agents.map (fun r =>
            if r.id = existing.id then
              { r with status := AgentStatus.complete,
                       output_artifacts := some artifacts,
                       completed_at := some now }
            else r) }
      | none =>
        insertAgent db
          { id := db.nextAgentId, project_id := project_id,
            agent_name := agent_name, phase_number := some phase_number,
            status := AgentStatus.complete,
            output_artifacts := some artifacts, error_message := none,
            started_at := none, completed_at := some now }
    match staged with
    | Except.error e => Except.error e
    | Except.ok db1 =>
      let db2 := touchProject db1 project_id now
      let db3 := log_event db2 project_id "agent_complete"
        [("agent_name", agent_name), ("phase_number", toString phase_number),
         ("artifacts", artifacts)]
        (some agent_name) (some phase_number) now
      Except.ok (db3, { success := true, phase := some phase_number })

/-- AppForgeStateManager.mark_agent_failed: INSERT INTO agents (project_id,
agent_name, status, error_message, completed_at) VALUES (?, ?, 'failed', ?, ?).
The INSERT omits the NOT NULL phase_number column. -/
def mark_agent_failed (db : DB) (project_id : Nat) (agent_name : String)
    (error : String) (now : Nat) : Except String (DB × MarkResult) :=
  match insertAgent db
      { id := db.nextAgentId, project_id := project_id,
        agent_name := agent_name, phase_number := none,
        status := AgentStatus.failed, output_artifacts := none,
        error_message := some error, started_at := none,
        completed_at := some now } with
  | Except.error e => Except.error e
  | Except.ok db1 =>
    let db2 := log_event db1 project_id "agent_failed"
      [("agent_name", agent_name), ("error", error)] (some agent_name) none now
    Except.ok (db2, { success := true })

/-! ## get_next_agents -/

/-- Entry of the ready list: {"name": ..., "phase": ...}. -/
structure ReadyEntry where
  name : String
  phase : Int
  deriving DecidableEq, Repr

/-- Entry of the blocked list: {"name": ..., "phase": ..., "missing": ...}. -/
structure BlockedEntry where
  name : String
  phase : Int
  missing : List String
  deriving DecidableEq, Repr

/-- Result dict of get_next_agents. -/
structure NextAgentsResult where
  success : Bool
  ready_agents : List ReadyEntry
  blocked_agents : List BlockedEntry
  deriving DecidableEq, Repr

/-- Lexicographic code-point comparison of names, the BINARY collation SQLite
applies to ORDER BY agent_name. -/
def charListLe : List Char → List Char → Bool
  | [], _ => true
  | _ :: _, [] => false
  | a :: as, b :: bs =>
    if a.toNat < b.toNat then true
    else if b.toNat < a.toNat then false
    else charListLe as bs

/-- Insertion of a pair into a list sorted by (phase, name), implementing the
ORDER BY phase_number, agent_name of the get_next_agents query. -/
def insertByPhaseName (x : String × List String × Int) :
    List (String × List String × Int) → List (String × List String × Int)
  | [] => [x]
  | y :: ys =>
    if x.2.2 < y.2.2 ∨ (x.2.2 = y.2.2 ∧ charListLe x.1.data y.1.data) then
      x :: y :: ys
    else y :: insertByPhaseName x ys

/-- SELECT agent_name FROM dependencies ORDER BY phase_number, agent_name. -/
def sortedAgentNames : List String :=
  ((dependencyGraph.foldr insertByPhaseName []).map (fun d => d.1))

/-- Loop body of get_next_agents: evaluate can_start_agent for one agent name
and extend the (ready, blocked) accumulator.  `check.get("can_start")` truthy
means the key is present and true; `check.get("missing_dependencies")` truthy
means the key is present with a non-empty list. -/
def nextAgentsStep (db : DB) (project_id : Nat)
    (acc : List ReadyEntry × List BlockedEntry) (agent_name : String) :
    List ReadyEntry × List BlockedEntry :=
  let check := can_start_agent db project_id agent_name
  if check.can_start = some true then
    if hasCompleteRecord db project_id agent_name then acc
    else (acc.1 ++ [{ name := agent_name,
                      phase := check.required_phase.getD 0 }], acc.2)
  else
    match check.missing_dependencies with
    | some missing =>
      if missing.length ≠ 0 then
        (acc.1, acc.2 ++ [{ name := agent_name,
                            phase := check.required_phase.getD 0,
                            missing := missing }])
      else acc
    | none => acc

/-- AppForgeStateManager.get_next_agents: iterate every known agent in
(phase, name) order, partition into ready and blocked, and cap blocked to
the first five (`blocked_agents[:5]`). -/
def get_next_agents (db : DB) (project_id : Nat) : NextAgentsResult :=
  let acc := sortedAgentNames.foldl (nextAgentsStep db project_id) ([], [])
  { success := true, ready_agents := acc.1, blocked_agents := acc.2.take 5 }

/-! ## record_approval -/

/-- Accumulating pass over the characters implementing Python str.split()
with no argument: split on runs of whitespace, dropping empty tokens. -/
def splitWsAux : List Char → List Char → List String
  | [], acc => if acc.isEmpty then [] else [String.mk acc.reverse]
  | c :: cs, acc =>
    if c.isWhitespace then
      if acc.isEmpty then splitWsAux cs []
      else String.mk acc.reverse :: splitWsAux cs []
    else splitWsAux cs (c :: acc)

/-- Python str.split() with no argument. -/
def pySplit (s : String) : List String :=
  splitWsAux s.data []

/-- Whether the first list of characters starts the second. -/
def leadsWith : List Char → List Char → Bool
  | [], _ => true
  | _ :: _, [] => false
  | a :: as, b :: bs => a = b && leadsWith as bs

/-- Substring search over characters. -/
def hasSub (needle : List Char) : List Char → Bool
  | [] => needle.isEmpty
  | c :: cs => leadsWith needle (c :: cs) || hasSub needle cs

/-- Python `"Gate" in gate_name` (substring containment). -/
def containsGate (s : String) : Bool :=
  hasSub "Gate".data s.data

/-- Decimal digit accumulation for `pyInt`; any non-digit fails. -/
def parseDigitsAux : List Char → Nat → Option Nat
  | [], acc => some acc
  | c :: cs, acc =>
    if c.isDigit then parseDigitsAux cs (acc * 10 + (c.toNat - 48)) else none

/-- At least one decimal digit. -/
def parseDigits : List Char → Option Nat
  | [] => none
  | c :: cs => parseDigitsAux (c :: cs) 0

/-- Model of Python int(s) on a whitespace-free token: optional sign then
decimal digits; anything else raises ValueError (`none` here). -/
def pyInt (s : String) : Option Int :=
  match s.data with
  | '-' :: rest => (parseDigits rest).map (fun n => -(n : Int))
  | '+' :: rest => (parseDigits rest).map (fun n => (n : Int))
  | cs => (parseDigits cs).map (fun n => (n : Int))

/-- The gate-number expression of record_approval:
`int(gate_name.split()[1]) if len(gate_name.split()) > 1 else None`;
`none` with a full token list means the Python value None, while an
unparsable second token is distinguished by `gateNumberRaises`. -/
def gateNumber (gate_name : String) : Option Int :=
  if (pySplit gate_name).length > 1 then
    pyInt (((pySplit gate_name).get? 1).getD "")
  else none

/-- True exactly when evaluating the gate-number expression raises
ValueError: a second token exists but int() cannot parse it. -/
def gateNumberRaises (gate_name : String) : Bool :=
  (pySplit gate_name).length > 1 ∧
    (pyInt (((pySplit gate_name).get? 1).getD "")).isNone

/-- Result dict of record_approval. -/
structure ApprovalResult where
  success : Bool
  approved : Bool
  deriving DecidableEq, Repr

/-- Row effect of UPDATE approval_gates SET status = ?, user_feedback = ?,
resolved_at = ? WHERE project_id = ? AND gate_name = ? AND
status = 'pending'. -/
def resolveGateUpdate (project_id : Nat) (gate_name : String)
    (st : GateStatus) (feedback : Option String) (now : Nat) (g : GateRow) :
    GateRow :=
  if g.project_id = project_id ∧ g.gate_name = gate_name ∧
      g.status = GateStatus.pending then
    { g with status := st, user_feedback := feedback, resolved_at := some now }
  else g

/-- Row effect of UPDATE projects SET current_phase = ?, updated_at = ?
WHERE id = ?. -/
def projectPhaseUpdate (project_id : Nat) (next_phase : Int) (now : Nat)
    (p : ProjectRow) : ProjectRow :=
  if p.id = project_id then
    { p with current_phase := next_phase, updated_at := now }
  else p

/-- Row effect of UPDATE phases SET status = 'in_progress', started_at = ?
WHERE project_id = ? AND phase_number = ?. -/
def phaseStartUpdate (project_id : Nat) (next_phase : Int) (now : Nat)
    (ph : PhaseRow) : PhaseRow :=
  if ph.project_id = project_id ∧ ph.phase_number = next_phase then
    { ph with status := PhaseStatus.in_progress, started_at := some now }
  else ph

/-- The phase-advancement write pair of record_approval. -/
def advancePhase (db : DB) (project_id : Nat) (next_phase : Int) (now : Nat) :
    DB :=
  let db1 := { db with
    projects := db.projects.map (projectPhaseUpdate project_id next_phase now) }
  { db1 with
    phases := db1.phases.map (phaseStartUpdate project_id next_phase now) }

/-- AppForgeStateManager.record_approval: resolve every pending gate matching
(project, name) to approved/rejected, then, when approved and the name
contains "Gate", parse the second whitespace token as the phase to advance to
(int() may raise, aborting the transaction); a zero or absent gate number is
falsy and skips advancement.  Finally append an approval_recorded audit
entry. -/
def record_approval (db : DB) (project_id : Nat) (gate_name : String)
    (approved : Bool) (feedback : Option String) (now : Nat) :
    Except String (DB × ApprovalResult) :=
  let status : GateStatus :=
    if approved then GateStatus.approved else GateStatus.rejected
  let db1 := { db with
    approval_gates := db.approval_gates.map
      (resolveGateUpdate project_id gate_name status feedback now) }
  let advanced : Except String DB :=
    if approved ∧ containsGate gate_name then
      if gateNumberRaises gate_name then
        Except.error ("invalid literal for int() with base 10: " ++
          ((pySplit gate_name).get? 1).getD "")
      else
        match gateNumber gate_name with
        | some n => if n ≠ 0 then Except.ok (advancePhase db1 project_id n now)
                    else Except.ok db1
        | none => Except.ok db1
    else Except.ok db1
  match advanced with
  | Except.error e => Except.error e
  | Except.ok db2 =>
    let db3 := log_event db2 project_id "approval_recorded"
      [("gate_name", gate_name), ("approved", toString approved),
       ("feedback", (feedback.getD "None"))] none none now
    Except.ok (db3, { success := true, approved := approved })

/-- Outcome at the MCP tool boundary: either the structured result of the
operation, or the generic failure dict built in call_tool's except clause. -/
inductive ToolOutcome (R : Type) where
  | ok (r : R)
  | failure (error : String) (tool : String)
  deriving DecidableEq, Repr

/-- The appforge_record_approval branch of call_tool composed with the
connection context manager: on an exception the transaction is rolled back
(the pre-call state is kept) and a generic structured failure naming the
tool is returned. -/
def call_tool_record_approval (db : DB) (project_id : Nat)
    (gate_name : String) (approved : Bool) (feedback : Option String)
    (now : Nat) : DB × ToolOutcome ApprovalResult :=
  match record_approval db project_id gate_name approved feedback now with
  | Except.ok (db2, r) => (db2, ToolOutcome.ok r)
  | Except.error e => (db, ToolOutcome.failure e "appforge_record_approval")

/-! ## Feature backlog operations -/

/-- The CASE priority WHEN 'HIGH' THEN 1 WHEN 'MEDIUM' THEN 2 WHEN 'LOW'
THEN 3 END sort key of get_next_feature. -/
def priorityRank : Priority → Nat
  | Priority.HIGH => 1
  | Priority.MEDIUM => 2
  | Priority.LOW => 3

/-- Strict lexicographic comparison on (priority rank, id), the ORDER BY of
get_next_feature. -/
def featureLt (f g : FeatureRow) : Bool :=
  priorityRank f.priority < priorityRank g.priority ∨
    (priorityRank f.priority = priorityRank g.priority ∧ f.id < g.id)

/-- Non-strict lexicographic comparison on (priority rank, id). -/
def featureLe (f g : FeatureRow) : Prop :=
  priorityRank f.priority < priorityRank g.priority ∨
    (priorityRank f.priority = priorityRank g.priority ∧ f.id ≤ g.id)

/-- WHERE project_id = ? AND status = 'pending' of get_next_feature. -/
def pendingFeatures (db : DB) (project_id : Nat) : List FeatureRow :=
  db.features.filter (fun f =>
    decide (f.project_id = project_id ∧ f.status = FeatureStatus.pending))

/-- Selection step keeping the row minimal under the ORDER BY key. -/
def chooseMin (best : Option FeatureRow) (f : FeatureRow) : Option FeatureRow :=
  match best with
  | none => some f
  | some b => if featureLt f b then some f else some b

/-- AppForgeStateManager.get_next_feature: the pending feature minimal under
ORDER BY priority-rank, id (LIMIT 1); `none` models has_next = false. -/
def get_next_feature (db : DB) (project_id : Nat) : Option FeatureRow :=
  (pendingFeatures db project_id).foldl chooseMin none

/-- Result dict of mark_feature_complete (always success = True). -/
structure FeatureCompleteResult where
  success : Bool
  deriving DecidableEq, Repr

/-- Row effect of UPDATE features SET status = 'complete', completed_at = ?
WHERE id = ?. -/
def featureCompleteUpdate (feature_id : Nat) (now : Nat) (f : FeatureRow) :
    FeatureRow :=
  if f.id = feature_id then
    { f with status := FeatureStatus.complete, completed_at := some now }
  else f

/-- AppForgeStateManager.mark_feature_complete: UPDATE features SET
status = 'complete', completed_at = ? WHERE id = ? (note: no project_id
restriction), then read the feature name back for the audit entry, using
"Unknown" when the row is absent. -/
def mark_feature_complete (db : DB) (project_id : Nat) (feature_id : Nat)
    (now : Nat) : DB × FeatureCompleteResult :=
  let db1 := { db with
    features := db.features.map (featureCompleteUpdate feature_id now) }
  let feature := db1.features.find? (fun f => f.id = feature_id)
  let fname := match feature with
    | some f => f.feature_name
    | none => "Unknown"
  let db2 := log_event db1 project_id "feature_complete"
    [("feature_id", toString feature_id), ("feature_name", fname)]
    none none now
  (db2, { success := true })

/-- Result dict of record_feature_retry: either the retry counters or the
"Feature not found" failure. -/
inductive RetryResult where
  | counters (retry_count retries_left : Int) (max_retries_reached : Bool)
  | failure (error : String)
  deriving DecidableEq, Repr

/-- Row effect of UPDATE features SET retry_count = retry_count + 1
WHERE id = ?. -/
def featureRetryUpdate (feature_id : Nat) (f : FeatureRow) : FeatureRow :=
  if f.id = feature_id then { f with retry_count := f.retry_count + 1 }
  else f

/-- AppForgeStateManager.record_feature_retry: UPDATE features SET
retry_count = retry_count + 1 WHERE id = ? (note: no project_id restriction),
then read the counters back; a missing row yields success = False with
"Feature not found" and no audit entry. -/
def record_feature_retry (db : DB) (project_id : Nat) (feature_id : Nat)
    (now : Nat) : DB × RetryResult :=
  let db1 := { db with
    features := db.features.map (featureRetryUpdate feature_id) }
  match db1.features.find? (fun f => f.id = feature_id) with
  | some f =>
    let retries_left := f.max_retries - f.retry_count
    let db2 := log_event db1 project_id "feature_retry"
      [("feature_id", toString feature_id),
       ("feature_name", f.feature_name),
       ("retry_count", toString f.retry_count),
       ("retries_left", toString retries_left)] none none now
    (db2, RetryResult.counters f.retry_count retries_left
      (decide (retries_left ≤ 0)))
  | none => (db1, RetryResult.failure "Feature not found")

/-! ## Helper lemmas -/

/-- The probe used by get_next_agents agrees with membership in the
completed-name list used by can_start_agent. -/
theorem hasCompleteRecord_iff_mem (db : DB) (pid : Nat) (d : String) :
    hasCompleteRecord db pid d = true ↔ d ∈ completedNames db pid := by
  simp only [hasCompleteRecord, List.find?_isSome, completedNames,
    List.mem_map, List.mem_filter, decide_eq_true_eq]
  constructor
  · rintro ⟨a, ha, h1, h2, h3⟩
    exact ⟨a, ⟨ha, h1, h3⟩, h2⟩
  · rintro ⟨a, ⟨ha, h1, h3⟩, h2⟩
    exact ⟨a, ha, h1, h2, h3⟩

/-- Boolean list containment on strings coincides with membership. -/
theorem contains_eq_mem (l : List String) (d : String) :
    l.contains d = true ↔ d ∈ l := by
  simp [List.contains]

/-- The missing-prerequisite filter of can_start_agent is empty exactly when
every prerequisite has a complete record. -/
theorem missing_filter_eq_nil (db : DB) (pid : Nat) (deps : List String) :
    deps.filter (fun dep => ¬ (completedNames db pid).contains dep) = [] ↔
      ∀ d ∈ deps, hasCompleteRecord db pid d = true := by
  rw [List.filter_eq_nil_iff]
  constructor
  · intro hf d hd
    have h := hf d hd
    rw [hasCompleteRecord_iff_mem, ← contains_eq_mem]
    simpa using h
  · intro hc d hd
    have h := hc d hd
    rw [hasCompleteRecord_iff_mem] at h
    simp [h]

/-! ## Fixtures for witnesses and counterexamples -/

/-- Fixture project row: id 1, freshly created (phase 0, active). -/
def projectOne : ProjectRow :=
  { id := 1, name := "P", description := "demo", tech_stack := "default",
    current_phase := 0, status := ProjectStatus.active,
    created_at := 0, updated_at := 0 }

/-- Fixture phase rows for project 1, as create_project seeds them. -/
def phaseRowsOne : List PhaseRow :=
  [ { id := 1, project_id := 1, phase_number := 0,
      phase_name := "Input Gathering", status := PhaseStatus.in_progress,
      started_at := some 0, completed_at := none },
    { id := 2, project_id := 1, phase_number := 1, phase_name := "Discovery",
      status := PhaseStatus.pending, started_at := none, completed_at := none },
    { id := 3, project_id := 1, phase_number := 2,
      phase_name := "Technical Design", status := PhaseStatus.pending,
      started_at := none, completed_at := none },
    { id := 4, project_id := 1, phase_number := 3, phase_name := "Foundation",
      status := PhaseStatus.pending, started_at := none, completed_at := none },
    { id := 5, project_id := 1, phase_number := 4,
      phase_name := "Feature Development", status := PhaseStatus.pending,
      started_at := none, completed_at := none },
    { id := 6, project_id := 1, phase_number := 5, phase_name := "Hardening",
      status := PhaseStatus.pending, started_at := none, completed_at := none },
    { id := 7, project_id := 1, phase_number := 6, phase_name := "Deployment",
      status := PhaseStatus.pending, started_at := none, completed_at := none } ]

/-- Fixture database: exactly one freshly created project. -/
def baseDB : DB :=
  { projects := [projectOne], phases := phaseRowsOne, agents := [],
    features := [], approval_gates := [], audit_log := [],
    nextProjectId := 2, nextPhaseId := 8, nextAgentId := 1,
    nextFeatureId := 1, nextGateId := 1, nextAuditId := 1 }

/-! ## C4: mark_agent_failed -/

/-- C4: mark_agent_failed builds an INSERT INTO agents that omits the
phase_number column, which the schema declares NOT NULL with no default, so
every call raises an IntegrityError (and hence never inserts a failed run
record, contradicting the claim that N calls yield N failed rows). -/
theorem mark_agent_failed_always_raises (db : DB) (project_id : Nat)
    (agent_name error : String) (now : Nat) :
    mark_agent_failed db project_id agent_name error now =
      Except.error "NOT NULL constraint failed: agents.phase_number" := rfl

/-! ## C1: can_start_agent -/

/-- C1: for an agent present in the dependency graph, can_start_agent reports
can_start = true exactly when every prerequisite has a complete-status run
record for the project and the project's current phase is at least the
agent's required phase; and when the prerequisites are all complete but the
phase is too low, can_start is false and the missing list is exactly the
synthetic phase-mismatch entry. -/
theorem can_start_agent_ready_iff (db : DB) (project_id : Nat)
    (agent_name : String) (deps : List String) (reqPhase : Int)
    (h : depLookup agent_name = some (deps, reqPhase)) :
    ((can_start_agent db project_id agent_name).can_start = some true ↔
      ((∀ d ∈ deps, hasCompleteRecord db project_id d = true) ∧
        reqPhase ≤ currentPhaseOf db project_id)) ∧
    ((∀ d ∈ deps, hasCompleteRecord db project_id d = true) →
      currentPhaseOf db project_id < reqPhase →
      (can_start_agent db project_id agent_name).can_start = some false ∧
      (can_start_agent db project_id agent_name).missing_dependencies =
        some ["Project is in Phase " ++ toString (currentPhaseOf db project_id)
              ++ ", but agent requires Phase " ++ toString reqPhase]) := by
  have hmiss := missing_filter_eq_nil db project_id deps
  simp only [can_start_agent, h]
  by_cases hcond :
      (deps.filter (fun dep => ¬ (completedNames db project_id).contains dep)).length = 0 ∧
        currentPhaseOf db project_id < reqPhase
  · rw [if_pos hcond]
    constructor
    · simp only [Option.some.injEq]
      constructor
      · intro hfalse
        exact absurd hfalse (by simp)
      · rintro ⟨_, hle⟩
        exact absurd hcond.2 (by omega)
    · intro hall hlt
      refine ⟨rfl, ?_⟩
      have hnil : deps.filter
          (fun dep => ¬ (completedNames db project_id).contains dep) = [] :=
        hmiss.mpr hall
      simp only [hnil, List.nil_append]
  · rw [if_neg hcond]
    rw [Classical.not_and_iff_or_not_not] at hcond
    constructor
    · simp only [Option.some.injEq]
      rw [decide_eq_true_iff, List.length_eq_zero, hmiss]
      rcases hcond with hlen | hge
      · rw [List.length_eq_zero, hmiss] at hlen
        constructor
        · intro hall; exact absurd hall hlen
        · rintro ⟨hall, _⟩; exact absurd hall hlen
      · constructor
        · intro hall; exact ⟨hall, by omega⟩
        · rintro ⟨hall, _⟩; exact hall
    · intro hall hlt
      rcases hcond with hlen | hge
      · rw [List.length_eq_zero, hmiss] at hlen
        exact absurd hall hlen
      · exact absurd hlt (by omega)

/-- C1 witness: at the fixture database the equivalence holds for the entry
agent input-agent, whose prerequisite list is empty and required phase 0. -/
theorem can_start_agent_ready_iff_witness :
    (((can_start_agent baseDB 1 "input-agent").can_start = some true ↔
      ((∀ d ∈ ([] : List String), hasCompleteRecord baseDB 1 d = true) ∧
        (0 : Int) ≤ currentPhaseOf baseDB 1)) ∧
    ((∀ d ∈ ([] : List String), hasCompleteRecord baseDB 1 d = true) →
      currentPhaseOf baseDB 1 < (0 : Int) →
      (can_start_agent baseDB 1 "input-agent").can_start = some false ∧
      (can_start_agent baseDB 1 "input-agent").missing_dependencies =
        some ["Project is in Phase " ++ toString (currentPhaseOf baseDB 1)
              ++ ", but agent requires Phase " ++ toString (0 : Int)])) :=
  can_start_agent_ready_iff baseDB 1 "input-agent" [] 0 (by decide)

/-! ## C6: get_next_feature -/

/-- Reflexivity of the ORDER BY key comparison. -/
theorem featureLe_refl (f : FeatureRow) : featureLe f f :=
  Or.inr ⟨rfl, le_refl _⟩

/-- A strict key comparison implies the non-strict one. -/
theorem featureLt_le {f g : FeatureRow} (h : featureLt f g = true) :
    featureLe f g := by
  unfold featureLt at h
  unfold featureLe
  rw [decide_eq_true_iff] at h
  omega

/-- Totality: a failed strict comparison yields the reverse non-strict one. -/
theorem featureLt_false_le {f g : FeatureRow} (h : featureLt f g = false) :
    featureLe g f := by
  unfold featureLt at h
  unfold featureLe
  rw [decide_eq_false_iff_not] at h
  omega

/-- Transitivity of the non-strict key comparison. -/
theorem featureLe_trans {f g k : FeatureRow} (h1 : featureLe f g)
    (h2 : featureLe g k) : featureLe f k := by
  unfold featureLe at h1 h2 ⊢
  omega

/-- Folding chooseMin from a some-accumulator never yields none. -/
theorem foldl_chooseMin_isSome (l : List FeatureRow) :
    ∀ b : FeatureRow, (l.foldl chooseMin (some b)).isSome = true := by
  induction l with
  | nil => intro b; rfl
  | cons x xs ih =>
    intro b
    simp only [List.foldl_cons, chooseMin]
    cases hxb : featureLt x b
    · rw [if_neg (by simp [hxb])]; exact ih b
    · rw [if_pos (by simp [hxb])]; exact ih x

/-- The fold yields none exactly on the empty list. -/
theorem foldl_chooseMin_none_iff (l : List FeatureRow) :
    l.foldl chooseMin none = none ↔ l = [] := by
  cases l with
  | nil => simp
  | cons x xs =>
    constructor
    · intro h
      have hs := foldl_chooseMin_isSome xs x
      have hx : chooseMin none x = some x := rfl
      rw [List.foldl_cons, hx] at h
      rw [h] at hs
      cases hs
    · intro h
      cases h

/-- Any result of the fold belongs to the list (or is the accumulator) and is
minimal under the ORDER BY key among both. -/
theorem foldl_chooseMin_spec (l : List FeatureRow) :
    ∀ (b : Option FeatureRow) (f : FeatureRow),
      l.foldl chooseMin b = some f →
      (f ∈ l ∨ b = some f) ∧
      (∀ g ∈ l, featureLe f g) ∧
      (∀ b0, b = some b0 → featureLe f b0) := by
  induction l with
  | nil =>
    intro b f h
    simp only [List.foldl_nil] at h
    refine ⟨Or.inr h, by simp, fun b0 hb => ?_⟩
    rw [hb] at h
    cases h
    exact featureLe_refl f
  | cons x xs ih =>
    intro b f h
    simp only [List.foldl_cons] at h
    obtain ⟨hmem, hmin, hb⟩ := ih (chooseMin b x) f h
    have hx : featureLe f x := by
      cases b with
      | none => exact hb x rfl
      | some b0 =>
        cases hxb : featureLt x b0
        · have hfb0 : featureLe f b0 := hb b0 (by simp [chooseMin, hxb])
          exact featureLe_trans hfb0 (featureLt_false_le hxb)
        · exact hb x (by simp [chooseMin, hxb])
    have hbnew : ∀ b0, b = some b0 → featureLe f b0 := by
      intro b0 hb0
      subst hb0
      cases hxb : featureLt x b0
      · exact hb b0 (by simp [chooseMin, hxb])
      · exact featureLe_trans hx (featureLt_le hxb)
    have hmem2 : f ∈ x :: xs ∨ b = some f := by
      rcases hmem with hin | hcb
      · exact Or.inl (List.mem_cons_of_mem _ hin)
      · cases b with
        | none =>
          have hxf : x = f := by simpa [chooseMin] using hcb
          exact Or.inl (hxf ▸ List.mem_cons_self x xs)
        | some b0 =>
          cases hxb : featureLt x b0
          · have hb0f : b0 = f := by simpa [chooseMin, hxb] using hcb
            exact Or.inr (by rw [hb0f])
          · have hxf : x = f := by simpa [chooseMin, hxb] using hcb
            exact Or.inl (hxf ▸ List.mem_cons_self x xs)
    refine ⟨hmem2, ?_, hbnew⟩
    intro g hg
    rcases List.mem_cons.mp hg with rfl | hgxs
    · exact hx
    · exact hmin g hgxs

/-- C6: get_next_feature returns none exactly when no pending feature of the
project remains, and otherwise returns a pending feature of the project that
is minimal under priority rank (HIGH=1 < MEDIUM=2 < LOW=3) with ties broken
by smallest insertion id. -/
theorem get_next_feature_min (db : DB) (project_id : Nat) :
    (get_next_feature db project_id = none ↔
      pendingFeatures db project_id = []) ∧
    (∀ f, get_next_feature db project_id = some f →
      f ∈ pendingFeatures db project_id ∧
      ∀ g ∈ pendingFeatures db project_id, featureLe f g) := by
  constructor
  · exact foldl_chooseMin_none_iff (pendingFeatures db project_id)
  · intro f hf
    obtain ⟨hmem, hmin, _⟩ :=
      foldl_chooseMin_spec (pendingFeatures db project_id) none f hf
    rcases hmem with h | h
    · exact ⟨h, hmin⟩
    · cases h

/-! ## C8: feature updates ignore project ownership -/

/-- C8: the UPDATEs of mark_feature_complete and record_feature_retry match
on the feature id alone, so the features table after either call does not
depend on the project_id argument, and a feature owned by a different
project is completed or retry-incremented all the same. -/
theorem feature_updates_ignore_project (db : DB) (pid other fid now : Nat) :
    ((mark_feature_complete db pid fid now).1.features =
      (mark_feature_complete db other fid now).1.features) ∧
    ((record_feature_retry db pid fid now).1.features =
      (record_feature_retry db other fid now).1.features) ∧
    (∀ f ∈ db.features, f.id = fid → f.project_id ≠ pid →
      (∃ g ∈ (mark_feature_complete db pid fid now).1.features,
        g.id = f.id ∧ g.project_id = f.project_id ∧
        g.status = FeatureStatus.complete ∧ g.completed_at = some now) ∧
      (∃ g ∈ (record_feature_retry db pid fid now).1.features,
        g.id = f.id ∧ g.project_id = f.project_id ∧
        g.retry_count = f.retry_count + 1)) := by
  have hret : ∀ p : Nat, (record_feature_retry db p fid now).1.features =
      db.features.map (featureRetryUpdate fid) := by
    intro p
    simp only [record_feature_retry]
    cases h : (db.features.map (featureRetryUpdate fid)).find?
        (fun f => f.id = fid) <;>
      simp [h, log_event]
  refine ⟨rfl, by rw [hret pid, hret other], ?_⟩
  intro f hf hid hproj
  constructor
  · refine ⟨featureCompleteUpdate fid now f, ?_, ?_⟩
    · show featureCompleteUpdate fid now f ∈
        db.features.map (featureCompleteUpdate fid now)
      exact List.mem_map_of_mem _ hf
    · simp [featureCompleteUpdate, hid]
  · refine ⟨featureRetryUpdate fid f, ?_, ?_⟩
    · rw [hret pid]
      exact List.mem_map_of_mem _ hf
    · simp [featureRetryUpdate, hid]

/-! ## C10: missing feature id -/

/-- C10: on a feature id with no row, mark_feature_complete still reports
success (its UPDATE matches zero rows) and logs the feature name as Unknown,
while record_feature_retry on the same missing id reports failure with
"Feature not found" and logs nothing. -/
theorem missing_feature_report_mismatch (db : DB) (pid fid now : Nat)
    (h : ∀ f ∈ db.features, f.id ≠ fid) :
    (mark_feature_complete db pid fid now).2.success = true ∧
    (∃ e ∈ (mark_feature_complete db pid fid now).1.audit_log,
      e.event_type = "feature_complete" ∧
      ("feature_name", "Unknown") ∈ e.details) ∧
    (record_feature_retry db pid fid now).2 =
      RetryResult.failure "Feature not found" := by
  have hfind1 : (db.features.map (featureCompleteUpdate fid now)).find?
      (fun f => f.id = fid) = none := by
    rw [List.find?_eq_none]
    intro x hx
    obtain ⟨y, hy, rfl⟩ := List.mem_map.mp hx
    simp [featureCompleteUpdate, h y hy]
  have hfind2 : (db.features.map (featureRetryUpdate fid)).find?
      (fun f => f.id = fid) = none := by
    rw [List.find?_eq_none]
    intro x hx
    obtain ⟨y, hy, rfl⟩ := List.mem_map.mp hx
    simp [featureRetryUpdate, h y hy]
  refine ⟨rfl, ?_, ?_⟩
  · simp only [mark_feature_complete, hfind1, log_event]
    refine ⟨_, List.mem_append_right _ (List.mem_singleton_self _), rfl, ?_⟩
    simp
  · simp only [record_feature_retry, hfind2]

/-- C10 witness: at the fixture database, which has no features, feature id
42 is missing and the two operations disagree as stated. -/
theorem missing_feature_report_mismatch_witness :
    (mark_feature_complete baseDB 1 42 9).2.success = true ∧
    (∃ e ∈ (mark_feature_complete baseDB 1 42 9).1.audit_log,
      e.event_type = "feature_complete" ∧
      ("feature_name", "Unknown") ∈ e.details) ∧
    (record_feature_retry baseDB 1 42 9).2 =
      RetryResult.failure "Feature not found" :=
  missing_feature_report_mismatch baseDB 1 42 9 (by decide)

/-! ## C9: unparsable gate-number token -/

/-- C9: record_approval with approved = true and gate name "Feature Gate"
(which contains "Gate" but whose second token is not an integer) raises the
int() ValueError; at the tool boundary the transaction is rolled back — the
pending gate stays pending — and a generic structured failure naming the
tool is returned. -/
theorem record_approval_bad_token_raises (db : DB) (pid : Nat)
    (fb : Option String) (now : Nat)
    (hg : ∃ g ∈ db.approval_gates, g.project_id = pid ∧
      g.gate_name = "Feature Gate" ∧ g.status = GateStatus.pending) :
    record_approval db pid "Feature Gate" true fb now =
      Except.error "invalid literal for int() with base 10: Gate" ∧
    call_tool_record_approval db pid "Feature Gate" true fb now =
      (db, ToolOutcome.failure "invalid literal for int() with base 10: Gate"
        "appforge_record_approval") ∧
    ∃ g ∈ (call_tool_record_approval db pid "Feature Gate" true fb
        now).1.approval_gates,
      g.project_id = pid ∧ g.gate_name = "Feature Gate" ∧
      g.status = GateStatus.pending := by
  have h1 : record_approval db pid "Feature Gate" true fb now =
      Except.error "invalid literal for int() with base 10: Gate" := rfl
  refine ⟨h1, ?_, ?_⟩
  · simp [call_tool_record_approval, h1]
  · simpa [call_tool_record_approval, h1] using hg

/-- C9 fixture gate row: pending, named "Feature Gate". -/
def featureGateRow : GateRow :=
  { id := 1, project_id := 1, gate_name := "Feature Gate",
    gate_type := GateType.must_approve, status := GateStatus.pending,
    artifacts := "art-list", user_feedback := none, requested_at := 2,
    resolved_at := none }

/-- C9 fixture: the base database with one pending "Feature Gate" gate. -/
def featureGateDB : DB :=
  { baseDB with approval_gates := [featureGateRow], nextGateId := 2 }

/-- C9 witness: the ValueError, rollback and generic failure at the concrete
fixture. -/
theorem record_approval_bad_token_raises_witness :
    (record_approval featureGateDB 1 "Feature Gate" true none 5 =
      Except.error "invalid literal for int() with base 10: Gate" ∧
    call_tool_record_approval featureGateDB 1 "Feature Gate" true none 5 =
      (featureGateDB,
        ToolOutcome.failure "invalid literal for int() with base 10: Gate"
          "appforge_record_approval") ∧
    ∃ g ∈ (call_tool_record_approval featureGateDB 1 "Feature Gate" true none
        5).1.approval_gates,
      g.project_id = 1 ∧ g.gate_name = "Feature Gate" ∧
      g.status = GateStatus.pending) :=
  record_approval_bad_token_raises featureGateDB 1 none 5 (by decide)

/-! ## C2: mark_agent_complete called twice -/

/-- C2 fixture: the state after one successful completion of input-agent on
the fresh project. -/
def afterFirstComplete : DB :=
  match mark_agent_complete baseDB 1 "input-agent" "first-run" 10 with
  | Except.ok (d, _) => d
  | Except.error _ => baseDB

/-- C2 fixture: the state after a second, immediately successive completion
of the same agent. -/
def afterSecondComplete : DB :=
  match mark_agent_complete afterFirstComplete 1 "input-agent" "second-run" 11 with
  | Except.ok (d, _) => d
  | Except.error _ => afterFirstComplete

/-- C2 counterexample: two successive mark_agent_complete calls for
(project 1, input-agent) leave two complete-status rows for that pair —
the second call finds no non-complete record to update and inserts a fresh
complete row. -/
theorem mark_agent_complete_twice_two_rows :
    (afterSecondComplete.agents.filter (fun a =>
      decide (a.project_id = 1 ∧ a.agent_name = "input-agent" ∧
        a.status = AgentStatus.complete))).length = 2 := by decide

/-- C2 amended: the in-place update happens exactly when a non-complete run
record for the (project, agent) pair exists; in that case no row is inserted
(the agents table keeps its length) and that record becomes complete with the
given artifacts.  Without such a record — in particular on an immediately
repeated completion — a fresh complete row is inserted instead. -/
theorem mark_agent_complete_in_place (db : DB) (project_id : Nat)
    (agent_name artifacts : String) (now : Nat) (a : AgentRow)
    (deps : List String) (ph : Int)
    (hdep : depLookup agent_name = some (deps, ph))
    (hfind : db.agents.find? (nonCompleteRun project_id agent_name) = some a) :
    ∃ db2 r, mark_agent_complete db project_id agent_name artifacts now =
        Except.ok (db2, r) ∧
      db2.agents.length = db.agents.length ∧
      ∃ b ∈ db2.agents, b.id = a.id ∧ b.agent_name = a.agent_name ∧
        b.status = AgentStatus.complete ∧
        b.output_artifacts = some artifacts ∧ b.completed_at = some now := by
  simp only [mark_agent_complete, hdep, hfind]
  refine ⟨_, _, rfl, ?_, ?_⟩
  · simp [touchProject, log_event]
  · have hamem : a ∈ db.agents := List.mem_of_find?_eq_some hfind
    have hm := List.mem_map_of_mem (fun r : AgentRow =>
      if r.id = a.id then
        { r with status := AgentStatus.complete,
                 output_artifacts := some artifacts,
                 completed_at := some now }
      else r) hamem
    simp only [] at hm
    rw [if_pos trivial] at hm
    exact ⟨_, hm, rfl, rfl, rfl, rfl, rfl⟩

/-- C2 fixture: an in-progress run record for (project 1, input-agent). -/
def pendingRunRow : AgentRow :=
  { id := 1, project_id := 1, agent_name := "input-agent",
    phase_number := some 0, status := AgentStatus.in_progress,
    output_artifacts := none, error_message := none, started_at := some 1,
    completed_at := none }

/-- C2 fixture: the base database with that one in-progress run. -/
def pendingRunDB : DB :=
  { baseDB with agents := [pendingRunRow], nextAgentId := 2 }

/-- C2 witness: at the fixture with an in-progress input-agent run, the
completion call updates in place. -/
theorem mark_agent_complete_in_place_witness :
    ∃ db2 r, mark_agent_complete pendingRunDB 1 "input-agent" "art" 5 =
        Except.ok (db2, r) ∧
      db2.agents.length = pendingRunDB.agents.length ∧
      ∃ b ∈ db2.agents, b.id = pendingRunRow.id ∧
        b.agent_name = pendingRunRow.agent_name ∧
        b.status = AgentStatus.complete ∧
        b.output_artifacts = some "art" ∧ b.completed_at = some 5 :=
  mark_agent_complete_in_place pendingRunDB 1 "input-agent" "art" 5
    pendingRunRow [] 0 (by decide) (by decide)

/-! ## C3: record_approval on an already-resolved gate -/

/-- C3 fixture: an already-resolved (approved) "Gate 2" gate for project 1. -/
def resolvedGateRow : GateRow :=
  { id := 1, project_id := 1, gate_name := "Gate 2",
    gate_type := GateType.must_approve, status := GateStatus.approved,
    artifacts := "a", user_feedback := none, requested_at := 0,
    resolved_at := some 1 }

/-- C3 fixture: the base database whose only "Gate 2" gate is resolved. -/
def resolvedGateDB : DB :=
  { baseDB with approval_gates := [resolvedGateRow], nextGateId := 2 }

/-- C3 counterexample: with zero pending "Gate 2" gates, record_approval with
approved = true is not a no-op — it still advances the project's
current_phase from 0 to 2. -/
theorem record_approval_resolved_gate_not_noop :
    ((resolvedGateDB.approval_gates.filter (fun g =>
      decide (g.project_id = 1 ∧ g.gate_name = "Gate 2" ∧
        g.status = GateStatus.pending))).length = 0) ∧
    currentPhaseOf resolvedGateDB 1 = 0 ∧
    (match record_approval resolvedGateDB 1 "Gate 2" true none 5 with
     | Except.ok (d, _) => currentPhaseOf d 1
     | Except.error _ => -1) = 2 := by decide

/-- With no pending gate matching (project, name), the gate UPDATE of
record_approval touches no row. -/
theorem resolveGateUpdate_map_id (gates : List GateRow) (project_id : Nat)
    (gate_name : String) (st : GateStatus) (feedback : Option String)
    (now : Nat)
    (hnp : ∀ g ∈ gates, ¬(g.project_id = project_id ∧
      g.gate_name = gate_name ∧ g.status = GateStatus.pending)) :
    gates.map (resolveGateUpdate project_id gate_name st feedback now) =
      gates := by
  induction gates with
  | nil => rfl
  | cons x xs ih =>
    have hx := hnp x (List.mem_cons_self x xs)
    rw [List.map_cons, ih (fun g hg => hnp g (List.mem_cons_of_mem x hg))]
    rw [resolveGateUpdate, if_neg hx]

/-- The project UPDATE of advancePhase leaves the first row with the given id
carrying the new current_phase. -/
theorem find?_projectPhaseUpdate (l : List ProjectRow) (project_id : Nat)
    (n : Int) (now : Nat) (hp : ∃ p ∈ l, p.id = project_id) :
    ∃ q, (l.map (projectPhaseUpdate project_id n now)).find?
        (fun p => p.id = project_id) = some q ∧ q.current_phase = n := by
  induction l with
  | nil =>
    obtain ⟨p, hp0, _⟩ := hp
    cases hp0
  | cons x xs ih =>
    by_cases hx : x.id = project_id
    · refine ⟨projectPhaseUpdate project_id n now x, ?_, ?_⟩
      · rw [List.map_cons,
          List.find?_cons_of_pos _ (by simp [projectPhaseUpdate, hx])]
      · simp [projectPhaseUpdate, hx]
    · obtain ⟨p, hp0, hpid⟩ := hp
      rcases List.mem_cons.mp hp0 with rfl | hpxs
      · exact absurd hpid hx
      · obtain ⟨q, hq, hqn⟩ := ih ⟨p, hpxs, hpid⟩
        refine ⟨q, ?_, hqn⟩
        rw [List.map_cons,
          List.find?_cons_of_neg _ (by simp [projectPhaseUpdate, hx]), hq]

/-- After advancePhase, the project's current phase is the advanced one. -/
theorem currentPhase_advancePhase (db : DB) (project_id : Nat) (n : Int)
    (now : Nat) (hp : ∃ p ∈ db.projects, p.id = project_id) :
    currentPhaseOf (advancePhase db project_id n now) project_id = n := by
  obtain ⟨q, hq, hqn⟩ := find?_projectPhaseUpdate db.projects project_id n now hp
  show (match (db.projects.map (projectPhaseUpdate project_id n now)).find?
      (fun p => p.id = project_id) with
    | some p => p.current_phase
    | none => 0) = n
  rw [hq]
  exact hqn

/-- C3 amended: when no gate named g is pending for the project, the gate
UPDATE of record_approval matches zero rows, so the gate table is unchanged;
but the call is not a no-op: it always appends an approval_recorded audit
entry, and when approved = true and the name contains "Gate" with a second
token parsing as a nonzero integer N, it still sets the project's
current_phase to N. -/
theorem record_approval_no_pending_amended (db : DB) (project_id : Nat)
    (gate_name : String) (approved : Bool) (feedback : Option String)
    (now : Nat)
    (hnp : ∀ g ∈ db.approval_gates, ¬(g.project_id = project_id ∧
      g.gate_name = gate_name ∧ g.status = GateStatus.pending))
    (hnr : gateNumberRaises gate_name = false) :
    ∃ db2 r, record_approval db project_id gate_name approved feedback now =
        Except.ok (db2, r) ∧
      db2.approval_gates = db.approval_gates ∧
      db2.audit_log.length = db.audit_log.length + 1 ∧
      ∀ n : Int, approved = true → containsGate gate_name = true →
        gateNumber gate_name = some n → n ≠ 0 →
        (∃ p ∈ db.projects, p.id = project_id) →
        currentPhaseOf db2 project_id = n := by
  cases approved with
  | false =>
    have hmap := resolveGateUpdate_map_id db.approval_gates project_id
      gate_name GateStatus.rejected feedback now hnp
    refine ⟨_, _, rfl, hmap, ?_, ?_⟩
    · show ((log_event _ _ _ _ _ _ _).audit_log).length = _
      simp [log_event]
    · intro n han
      cases han
  | true =>
    have hmap := resolveGateUpdate_map_id db.approval_gates project_id
      gate_name GateStatus.approved feedback now hnp
    cases hcg : containsGate gate_name with
    | false =>
      have hcond : ¬(True ∧ containsGate gate_name = true) := by simp [hcg]
      simp only [record_approval]
      rw [if_neg hcond]
      refine ⟨_, _, rfl, hmap, by simp [log_event], ?_⟩
      intro n _ hcg2
      cases hcg2
    | true =>
      have hcond : True ∧ containsGate gate_name = true := ⟨trivial, hcg⟩
      have hnr2 : ¬(gateNumberRaises gate_name = true) := by simp [hnr]
      cases hgn : gateNumber gate_name with
      | none =>
        simp only [record_approval]
        rw [if_pos hcond, if_neg hnr2]
        simp only [hgn]
        refine ⟨_, _, rfl, hmap, by simp [log_event], ?_⟩
        intro n _ _ hgn2
        cases hgn2
      | some m =>
        by_cases hm : m = 0
        · subst hm
          have hm0 : ¬((0 : Int) ≠ 0) := by omega
          simp only [record_approval]
          rw [if_pos hcond, if_neg hnr2]
          simp only [hgn]
          rw [if_neg hm0]
          refine ⟨_, _, rfl, hmap, by simp [log_event], ?_⟩
          intro n _ _ hgn2 hn0
          cases hgn2
          exact absurd rfl hn0
        · simp only [record_approval]
          rw [if_pos hcond, if_neg hnr2]
          simp only [hgn]
          rw [if_pos hm]
          refine ⟨_, _, rfl, hmap, ?_, ?_⟩
          · show ((log_event _ _ _ _ _ _ _).audit_log).length = _
            simp [log_event, advancePhase]
          · intro n _ _ hgn2 _ hp
            cases hgn2
            exact currentPhase_advancePhase _ project_id m now hp

/-- C3 witness: at the fixture with only a resolved "Gate 2" gate, the
amended statement holds concretely. -/
theorem record_approval_no_pending_amended_witness :
    ∃ db2 r, record_approval resolvedGateDB 1 "Gate 2" true none 5 =
        Except.ok (db2, r) ∧
      db2.approval_gates = resolvedGateDB.approval_gates ∧
      db2.audit_log.length = resolvedGateDB.audit_log.length + 1 ∧
      ∀ n : Int, true = true → containsGate "Gate 2" = true →
        gateNumber "Gate 2" = some n → n ≠ 0 →
        (∃ p ∈ resolvedGateDB.projects, p.id = 1) →
        currentPhaseOf db2 1 = n :=
  record_approval_no_pending_amended resolvedGateDB 1 "Gate 2" true none 5
    (by decide) (by decide)

/-! ## C7: approving "Gate 2" -/

/-- The phase UPDATE never changes a row's project. -/
theorem phaseStartUpdate_project_id (pid : Nat) (n : Int) (now : Nat)
    (y : PhaseRow) :
    (phaseStartUpdate pid n now y).project_id = y.project_id := by
  unfold phaseStartUpdate
  split <;> rfl

/-- The phase UPDATE never changes a row's phase number. -/
theorem phaseStartUpdate_phase_number (pid : Nat) (n : Int) (now : Nat)
    (y : PhaseRow) :
    (phaseStartUpdate pid n now y).phase_number = y.phase_number := by
  unfold phaseStartUpdate
  split <;> rfl

/-- On a matching row, the phase UPDATE sets in_progress and the start
timestamp. -/
theorem phaseStartUpdate_hit (pid : Nat) (n : Int) (now : Nat) (y : PhaseRow)
    (h1 : y.project_id = pid) (h2 : y.phase_number = n) :
    (phaseStartUpdate pid n now y).status = PhaseStatus.in_progress ∧
    (phaseStartUpdate pid n now y).started_at = some now := by
  unfold phaseStartUpdate
  rw [if_pos ⟨h1, h2⟩]
  exact ⟨rfl, rfl⟩

/-- C7: with a pending "Gate 2" gate, approving it sets the project's
current_phase to 2 and flips every phase-2 row of the project to in_progress
with a start timestamp; rejecting the same gate changes neither the projects
nor the phases table. -/
theorem record_approval_gate2_advances (db : DB) (project_id : Nat)
    (fb : Option String) (now : Nat)
    (hp : ∃ p ∈ db.projects, p.id = project_id)
    (hg : ∃ g ∈ db.approval_gates, g.project_id = project_id ∧
      g.gate_name = "Gate 2" ∧ g.status = GateStatus.pending)
    (hph : ∃ q ∈ db.phases, q.project_id = project_id ∧ q.phase_number = 2) :
    (∃ db2 r, record_approval db project_id "Gate 2" true fb now =
        Except.ok (db2, r) ∧
      currentPhaseOf db2 project_id = 2 ∧
      (∃ q ∈ db2.phases, q.project_id = project_id ∧ q.phase_number = 2 ∧
        q.status = PhaseStatus.in_progress ∧ q.started_at = some now) ∧
      (∀ q ∈ db2.phases, q.project_id = project_id → q.phase_number = 2 →
        q.status = PhaseStatus.in_progress ∧ q.started_at = some now)) ∧
    (∃ db2 r, record_approval db project_id "Gate 2" false fb now =
        Except.ok (db2, r) ∧
      db2.projects = db.projects ∧ db2.phases = db.phases) := by
  constructor
  · refine ⟨_, _, rfl, ?_, ?_, ?_⟩
    · exact currentPhase_advancePhase _ project_id 2 now hp
    · obtain ⟨q, hq, h1, h2⟩ := hph
      have hm := List.mem_map_of_mem (phaseStartUpdate project_id 2 now) hq
      obtain ⟨hs, hst⟩ := phaseStartUpdate_hit project_id 2 now q h1 h2
      exact ⟨phaseStartUpdate project_id 2 now q, hm,
        (phaseStartUpdate_project_id project_id 2 now q).trans h1,
        (phaseStartUpdate_phase_number project_id 2 now q).trans h2, hs, hst⟩
    · intro q hq h1 h2
      obtain ⟨y, hy, hyq⟩ := List.mem_map.mp hq
      cases hyq
      rw [phaseStartUpdate_project_id] at h1
      rw [phaseStartUpdate_phase_number] at h2
      exact phaseStartUpdate_hit project_id _ now y h1 h2
  · exact ⟨_, _, rfl, rfl, rfl⟩

/-- C7 fixture: a pending "Gate 2" gate on the fresh project. -/
def pendingGate2Row : GateRow :=
  { id := 1, project_id := 1, gate_name := "Gate 2",
    gate_type := GateType.must_approve, status := GateStatus.pending,
    artifacts := "a", user_feedback := none, requested_at := 3,
    resolved_at := none }

/-- C7 fixture: the base database plus that pending gate. -/
def pendingGate2DB : DB :=
  { baseDB with approval_gates := [pendingGate2Row], nextGateId := 2 }

/-- C7 witness: the phase advancement and the rejection no-op at the concrete
fixture. -/
theorem record_approval_gate2_advances_witness :
    (∃ db2 r, record_approval pendingGate2DB 1 "Gate 2" true none 5 =
        Except.ok (db2, r) ∧
      currentPhaseOf db2 1 = 2 ∧
      (∃ q ∈ db2.phases, q.project_id = 1 ∧ q.phase_number = 2 ∧
        q.status = PhaseStatus.in_progress ∧ q.started_at = some 5) ∧
      (∀ q ∈ db2.phases, q.project_id = 1 → q.phase_number = 2 →
        q.status = PhaseStatus.in_progress ∧ q.started_at = some 5)) ∧
    (∃ db2 r, record_approval pendingGate2DB 1 "Gate 2" false none 5 =
        Except.ok (db2, r) ∧
      db2.projects = pendingGate2DB.projects ∧
      db2.phases = pendingGate2DB.phases) :=
  record_approval_gate2_advances pendingGate2DB 1 none 5 (by decide)
    (by decide) (by decide)

/-! ## C5: get_next_agents partition -/

/-- C5 fixture: requirements-analyst holds a complete run record although its
own prerequisite input-agent does not. -/
def completedRaRow : AgentRow :=
  { id := 1, project_id := 1, agent_name := "requirements-analyst",
    phase_number := some 1, status := AgentStatus.complete,
    output_artifacts := some "x", error_message := none, started_at := none,
    completed_at := some 3 }

/-- C5 fixture: the base database with that one complete run. -/
def completedRaDB : DB :=
  { baseDB with agents := [completedRaRow], nextAgentId := 2 }

/-- C5 counterexample: an agent that already holds a complete-status run
record is not excluded from the blocked list — requirements-analyst is
complete yet listed as blocked, because the completeness check happens only
on the ready path. -/
theorem get_next_agents_complete_agent_in_blocked :
    hasCompleteRecord completedRaDB 1 "requirements-analyst" = true ∧
    ((get_next_agents completedRaDB 1).blocked_agents.map
      (fun b => b.name)).contains "requirements-analyst" = true := by decide

/-- Invariant of ready-list entries: readiness holds and no complete record
exists. -/
def ReadyOk (db : DB) (project_id : Nat) (e : ReadyEntry) : Prop :=
  (can_start_agent db project_id e.name).can_start = some true ∧
    hasCompleteRecord db project_id e.name = false

/-- Invariant of blocked-list entries: readiness fails and the entry carries
the non-empty missing list of the check. -/
def BlockedOk (db : DB) (project_id : Nat) (e : BlockedEntry) : Prop :=
  (can_start_agent db project_id e.name).can_start ≠ some true ∧
    (can_start_agent db project_id e.name).missing_dependencies =
      some e.missing ∧ e.missing ≠ []

/-- The ready-branch guard of the get_next_agents loop for one agent name:
readiness reported and no complete record. -/
def readyName (db : DB) (project_id : Nat) (agent_name : String) : Bool :=
  decide ((can_start_agent db project_id agent_name).can_start = some true) &&
    !(hasCompleteRecord db project_id agent_name)

/-- The blocked-branch guard of the get_next_agents loop for one agent name:
readiness not reported and a non-empty missing list present. -/
def blockedName (db : DB) (project_id : Nat) (agent_name : String) : Bool :=
  !(decide
      ((can_start_agent db project_id agent_name).can_start = some true)) &&
    decide ((((can_start_agent db project_id
      agent_name).missing_dependencies).getD []).length ≠ 0)

/-- The ready-list entry built for an agent name. -/
def readyEntryOf (db : DB) (project_id : Nat) (agent_name : String) :
    ReadyEntry :=
  { name := agent_name,
    phase := (can_start_agent db project_id agent_name).required_phase.getD 0 }

/-- The blocked-list entry built for an agent name. -/
def blockedEntryOf (db : DB) (project_id : Nat) (agent_name : String) :
    BlockedEntry :=
  { name := agent_name,
    phase := (can_start_agent db project_id agent_name).required_phase.getD 0,
    missing := ((can_start_agent db project_id
      agent_name).missing_dependencies).getD [] }

/-- The loop of get_next_agents appends, in iteration order, exactly the
ready entries of the names passing the ready guard and the blocked entries of
the names passing the blocked guard. -/
theorem foldl_nextAgentsStep_eq (db : DB) (project_id : Nat) :
    ∀ (l : List String) (acc : List ReadyEntry × List BlockedEntry),
      l.foldl (nextAgentsStep db project_id) acc =
        (acc.1 ++ (l.filter (readyName db project_id)).map
            (readyEntryOf db project_id),
         acc.2 ++ (l.filter (blockedName db project_id)).map
            (blockedEntryOf db project_id)) := by
  intro l
  induction l with
  | nil =>
    intro acc
    simp
  | cons x xs ih =>
    intro acc
    rw [List.foldl_cons, ih]
    by_cases hcs : (can_start_agent db project_id x).can_start = some true
    · by_cases hcr : hasCompleteRecord db project_id x = true
      · have h1 : nextAgentsStep db project_id acc x = acc := by
          simp only [nextAgentsStep]
          rw [if_pos hcs, if_pos hcr]
        rw [h1, List.filter_cons_of_neg (by simp [readyName, hcr]),
          List.filter_cons_of_neg (by simp [blockedName, hcs])]
      · have h1 : nextAgentsStep db project_id acc x =
            (acc.1 ++ [readyEntryOf db project_id x], acc.2) := by
          simp only [nextAgentsStep]
          rw [if_pos hcs, if_neg hcr]
          exact rfl
        have hcr2 : hasCompleteRecord db project_id x = false := by
          simpa using hcr
        rw [h1, List.filter_cons_of_pos (by simp [readyName, hcs, hcr2]),
          List.filter_cons_of_neg (by simp [blockedName, hcs])]
        simp [List.append_assoc]
    · cases hmd : (can_start_agent db project_id x).missing_dependencies with
      | none =>
        have h1 : nextAgentsStep db project_id acc x = acc := by
          simp only [nextAgentsStep]
          rw [if_neg hcs]
          simp only [hmd]
        rw [h1, List.filter_cons_of_neg (by simp [readyName, hcs]),
          List.filter_cons_of_neg (by simp [blockedName, hmd])]
      | some m =>
        by_cases hlen : m.length ≠ 0
        · have h1 : nextAgentsStep db project_id acc x =
              (acc.1, acc.2 ++ [blockedEntryOf db project_id x]) := by
            simp only [nextAgentsStep]
            rw [if_neg hcs]
            simp only [hmd]
            rw [if_pos hlen]
            simp [blockedEntryOf, hmd]
          rw [h1, List.filter_cons_of_neg (by simp [readyName, hcs]),
            List.filter_cons_of_pos (by simp [blockedName, hcs, hmd, hlen])]
          simp [List.append_assoc]
        · have h1 : nextAgentsStep db project_id acc x = acc := by
            simp only [nextAgentsStep]
            rw [if_neg hcs]
            simp only [hmd]
            rw [if_neg hlen]
          rw [h1, List.filter_cons_of_neg (by simp [readyName, hcs]),
            List.filter_cons_of_neg (by simp [blockedName, hmd, hlen])]

/-- C5 amended: get_next_agents returns exactly — in (phase, name) iteration
order — the ready entries of the graph agents that pass the readiness check
and hold no complete record, and the first five blocked entries of the graph
agents that fail the check with a non-empty missing list.  Hence an agent
passing the check and not yet complete always appears in ready (complete
agents are excluded from the ready list only), every ready entry passes the
check without a complete record, every blocked entry fails the check carrying
its non-empty missing list, and blocked is capped at five. -/
theorem get_next_agents_partition (db : DB) (project_id : Nat) :
    ((get_next_agents db project_id).ready_agents =
      (sortedAgentNames.filter (readyName db project_id)).map
        (readyEntryOf db project_id)) ∧
    ((get_next_agents db project_id).blocked_agents =
      ((sortedAgentNames.filter (blockedName db project_id)).map
        (blockedEntryOf db project_id)).take 5) ∧
    (∀ agent_name ∈ sortedAgentNames,
      (can_start_agent db project_id agent_name).can_start = some true →
      hasCompleteRecord db project_id agent_name = false →
      readyEntryOf db project_id agent_name ∈
        (get_next_agents db project_id).ready_agents) ∧
    (∀ e ∈ (get_next_agents db project_id).ready_agents,
      ReadyOk db project_id e) ∧
    (∀ e ∈ (get_next_agents db project_id).blocked_agents,
      BlockedOk db project_id e) ∧
    (get_next_agents db project_id).blocked_agents.length ≤ 5 := by
  have hfold := foldl_nextAgentsStep_eq db project_id sortedAgentNames ([], [])
  have hready : (get_next_agents db project_id).ready_agents =
      (sortedAgentNames.filter (readyName db project_id)).map
        (readyEntryOf db project_id) := by
    show (sortedAgentNames.foldl (nextAgentsStep db project_id) ([], [])).1 = _
    rw [hfold]
    simp
  have hblocked : (get_next_agents db project_id).blocked_agents =
      ((sortedAgentNames.filter (blockedName db project_id)).map
        (blockedEntryOf db project_id)).take 5 := by
    show ((sortedAgentNames.foldl
        (nextAgentsStep db project_id) ([], [])).2).take 5 = _
    rw [hfold]
    simp
  refine ⟨hready, hblocked, ?_, ?_, ?_, ?_⟩
  · intro agent_name hn h1 h2
    rw [hready]
    exact List.mem_map_of_mem _
      (List.mem_filter.mpr ⟨hn, by simp [readyName, h1, h2]⟩)
  · intro e he
    rw [hready] at he
    obtain ⟨agent_name, hnf, rfl⟩ := List.mem_map.mp he
    have hrn := (List.mem_filter.mp hnf).2
    simp only [readyName, Bool.and_eq_true, decide_eq_true_eq,
      Bool.not_eq_true'] at hrn
    exact ⟨hrn.1, hrn.2⟩
  · intro e he
    rw [hblocked] at he
    have he2 := List.take_subset 5 _ he
    obtain ⟨agent_name, hnf, rfl⟩ := List.mem_map.mp he2
    have hbn := (List.mem_filter.mp hnf).2
    simp only [blockedName, Bool.and_eq_true, Bool.not_eq_true',
      decide_eq_false_iff_not, decide_eq_true_eq] at hbn
    refine ⟨hbn.1, ?_, ?_⟩
    · show (can_start_agent db project_id agent_name).missing_dependencies =
        some (((can_start_agent db project_id
          agent_name).missing_dependencies).getD [])
      cases hmd :
          (can_start_agent db project_id agent_name).missing_dependencies with
      | none =>
        exfalso
        rw [hmd] at hbn
        exact hbn.2 rfl
      | some m =>
        rfl
    · show (((can_start_agent db project_id
        agent_name).missing_dependencies).getD []) ≠ []
      intro hnil
      exact hbn.2 (by rw [hnil]; rfl)
  · rw [hblocked, List.length_take]
    exact Nat.min_le_left _ _

end AppForge
